import Mathlib

/-
Verification development for the OSM extractor's geometry pipeline.

The JavaScript source (geometryProcessor.js, utils.js, exportService.js) is
shallowly embedded below: JS numbers are modelled as rationals, JS tag objects
as association lists of strings (keys of a parsed JSON object are distinct),
fallible operations return Option/Except.  JS truthiness of a number is
"nonzero", truthiness of a string is "nonempty"; these show up explicitly
where the source relies on them.
-/

/-- A coordinate pair, stored as (lon, lat) mirroring GeoJSON order. -/
abbrev Coord : Type := ℚ × ℚ

/-- An OSM tag mapping, as the entry list of the JS object. -/
abbrev Tags : Type := List (String × String)

/-- JS property access tags[k]: value of the key, if present.  Keys of a
parsed JSON object are distinct, so first match equals the object lookup. -/
def tagValue (ts : Tags) (k : String) : Option String :=
  (ts.find? fun kv => kv.1 == k).map (·.2)

/-- JS truthiness of tags[k]: the key is present with a non-empty value. -/
def truthyTag (ts : Tags) (k : String) : Bool :=
  match tagValue ts k with
  | some v => v != ""
  | none => false

/-- Object.keys(tags).length > 0 for an optional tag object. -/
def tagsNonEmpty (tags : Option Tags) : Bool :=
  match tags with
  | some ts => !ts.isEmpty
  | none => false

/-- utils.js Utils.isValidCoordinate: lat >= -90 && lat <= 90 && lon >= -180 && lon <= 180. -/
def isValidCoordinate (lat lon : ℚ) : Bool :=
  decide (-90 ≤ lat) && decide (lat ≤ 90) && decide (-180 ≤ lon) && decide (lon ≤ 180)

/-- geometryProcessor.js skipFields: metadata keys removed by cleanProperties. -/
def skipFields : List String := ["created_by", "source", "source:ref", "attribution"]

/-- geometryProcessor.js cleanProperties: drop entries whose value is empty
and entries whose key is in skipFields; null/undefined tags give {}. -/
def cleanProperties (tags : Option Tags) : Tags :=
  match tags with
  | none => []
  | some ts => ts.filter fun kv => !(kv.2 == "") && !(skipFields.contains kv.1)

/-- geometryProcessor.js polygonTags: keys whose (truthy) presence makes a closed way an area. -/
def polygonTags : List String :=
  ["building", "landuse", "amenity", "leisure", "tourism",
   "aeroway", "natural", "place", "shop", "office",
   "craft", "military", "public_transport"]

/-- geometryProcessor.js isAreaFeature(tags, isClosed, nodeCount). -/
def isAreaFeature (tags : Option Tags) (isClosed : Bool) (nodeCount : Nat) : Bool :=
  if !isClosed || decide (nodeCount < 4) then false
  else match tags with
  | none => false
  | some ts =>
    if tagValue ts "area" = some "yes" then true
    else if tagValue ts "area" = some "no" then false
    else if polygonTags.any (fun k => truthyTag ts k) then true
    else if tagValue ts "natural" = some "water" ∨ tagValue ts "natural" = some "wood" ∨
            tagValue ts "natural" = some "scrub" ∨ tagValue ts "natural" = some "wetland" then true
    else if tagValue ts "waterway" = some "riverbank" ∨ tagValue ts "waterway" = some "dock" then true
    else false

/-- Claim C1 rendered literally: after the closed/size guard and the explicit
area override, true exactly when one of the polygon keys IS PRESENT (any
value, including the empty string), or natural/waterway has a listed value. -/
def isAreaClaimC1 (ts : Tags) (isClosed : Bool) (nodeCount : Nat) : Bool :=
  if !isClosed || decide (nodeCount < 4) then false
  else if tagValue ts "area" = some "yes" then true
  else if tagValue ts "area" = some "no" then false
  else
    polygonTags.any (fun k => (tagValue ts k).isSome) ||
    decide (tagValue ts "natural" = some "water") || decide (tagValue ts "natural" = some "wood") ||
    decide (tagValue ts "natural" = some "scrub") || decide (tagValue ts "natural" = some "wetland") ||
    decide (tagValue ts "waterway" = some "riverbank") || decide (tagValue ts "waterway" = some "dock")

/-- Claim C1 amended: as the claim, but a polygon key counts only when it is
present with a non-empty value (JS truthiness of tags[key]). -/
def isAreaSpecC1 (ts : Tags) (isClosed : Bool) (nodeCount : Nat) : Bool :=
  if !isClosed || decide (nodeCount < 4) then false
  else if tagValue ts "area" = some "yes" then true
  else if tagValue ts "area" = some "no" then false
  else
    polygonTags.any (fun k => truthyTag ts k) ||
    decide (tagValue ts "natural" = some "water") || decide (tagValue ts "natural" = some "wood") ||
    decide (tagValue ts "natural" = some "scrub") || decide (tagValue ts "natural" = some "wetland") ||
    decide (tagValue ts "waterway" = some "riverbank") || decide (tagValue ts "waterway" = some "dock")

/-- GeoJSON geometry as the source manipulates it: the converter produces the
first four tagged kinds; uploaded collections may carry the remaining ones,
which the code dispatches on via the geometry type string (the `other` case
carries just that string, since no code path reads its coordinates). -/
inductive Geometry : Type
  | point (c : Coord)
  | multiPoint (cs : List Coord)
  | lineString (cs : List Coord)
  | multiLineString (ls : List (List Coord))
  | polygon (rings : List (List Coord))
  | multiPolygon (ps : List (List (List Coord)))
  | other (typeName : String)
deriving DecidableEq, Repr

/-- The geometry type string, as read by feature.geometry.type. -/
def geomTypeName : Geometry → String
  | .point _ => "Point"
  | .multiPoint _ => "MultiPoint"
  | .lineString _ => "LineString"
  | .multiLineString _ => "MultiLineString"
  | .polygon _ => "Polygon"
  | .multiPolygon _ => "MultiPolygon"
  | .other t => t

/-- feature.geometry.coordinates.length, per geometry kind: a Point's
coordinates array is the pair [lon, lat] of length 2. -/
def coordinatesLength : Geometry → Nat
  | .point _ => 2
  | .multiPoint cs => cs.length
  | .lineString cs => cs.length
  | .multiLineString ls => ls.length
  | .polygon rings => rings.length
  | .multiPolygon ps => ps.length
  | .other _ => 0

/-- A GeoJSON feature: geometry plus cleaned string properties. -/
structure Feature : Type where
  geometry : Geometry
  properties : Tags
deriving DecidableEq, Repr

/-- The output FeatureCollection (the fixed EPSG:4326 crs object is constant
in the source and carries no data, so only the feature list is modelled). -/
structure FeatureCollection : Type where
  features : List Feature
deriving DecidableEq, Repr

/-- The Leaflet bounds object handed to setClipBoundary. -/
structure BoundaryRect : Type where
  west : ℚ
  east : ℚ
  south : ℚ
  north : ℚ
deriving DecidableEq, Repr

/-- The stored clip boundary is a polygon; all consumers read only its outer
ring, so the ring (a coordinate list) is the stored value here. -/
abbrev ClipRing : Type := List Coord

/-- geometryProcessor.js setClipBoundary: null clears the boundary, otherwise
the rectangle becomes the five-point outer ring
[[west,north],[east,north],[east,south],[west,south],[west,north]]. -/
def setClipBoundary (bounds : Option BoundaryRect) : Option ClipRing :=
  bounds.map fun b =>
    [(b.west, b.north), (b.east, b.north), (b.east, b.south), (b.west, b.south), (b.west, b.north)]

/-- bounds[3][0] in the clipping code (minLon). -/
def ringMinLon (ring : ClipRing) : ℚ := (ring.getD 3 (0, 0)).1

/-- bounds[1][0] in the clipping code (maxLon). -/
def ringMaxLon (ring : ClipRing) : ℚ := (ring.getD 1 (0, 0)).1

/-- bounds[2][1] in the clipping code (minLat). -/
def ringMinLat (ring : ClipRing) : ℚ := (ring.getD 2 (0, 0)).2

/-- bounds[0][1] in the clipping code (maxLat). -/
def ringMaxLat (ring : ClipRing) : ℚ := (ring.getD 0 (0, 0)).2

/-- The inclusive bounds test lon >= minLon && lon <= maxLon && lat >= minLat
&& lat <= maxLat shared by isPointInBoundary, clipLineString and clipPolygon. -/
def insideRing (ring : ClipRing) (c : Coord) : Bool :=
  decide (ringMinLon ring ≤ c.1) && decide (c.1 ≤ ringMaxLon ring) &&
  decide (ringMinLat ring ≤ c.2) && decide (c.2 ≤ ringMaxLat ring)

/-- geometryProcessor.js isPointInBoundary: true when no boundary is set. -/
def isPointInBoundary (boundary : Option ClipRing) (lon lat : ℚ) : Bool :=
  match boundary with
  | none => true
  | some ring => insideRing ring (lon, lat)

/-- geometryProcessor.js clipPointToBoundary: coordinate-wise clamp. -/
def clipPointToBoundary (lon lat minLon maxLon minLat maxLat : ℚ) : Coord :=
  (max minLon (min maxLon lon), max minLat (min maxLat lat))

/-- The clamp of a coordinate to the ring's bounds, as clipLineString calls it. -/
def clampToRing (ring : ClipRing) (c : Coord) : Coord :=
  clipPointToBoundary c.1 c.2 (ringMinLon ring) (ringMaxLon ring) (ringMinLat ring) (ringMaxLat ring)

/-- The loop of clipLineString: walk the vertices carrying the list built so
far; an inside vertex is kept; an outside vertex that is not the last one is
replaced by its clamp when something was already kept and the next vertex is
inside; every other vertex is dropped. -/
def clipLineStringLoop (ring : ClipRing) (clipped : List Coord) : List Coord → List Coord
  | [] => clipped
  | c :: rest =>
    let clipped2 :=
      if insideRing ring c then clipped ++ [c]
      else
        match rest with
        | next :: _ =>
          if decide (0 < clipped.length) && insideRing ring next then
            clipped ++ [clampToRing ring c]
          else clipped
        | [] => clipped
    clipLineStringLoop ring clipped2 rest

/-- geometryProcessor.js clipLineString: identity when no boundary is set. -/
def clipLineString (boundary : Option ClipRing) (coords : List Coord) : List Coord :=
  match boundary with
  | none => coords
  | some ring => clipLineStringLoop ring [] coords

/-- Close a filtered ring as clipPolygon does: with at least 3 points left,
append a copy of the first point when it differs from the last. -/
def closeClippedRing (r : List Coord) : List Coord :=
  if 3 ≤ r.length then
    match r.head?, r.getLast? with
    | some f, some l => if f ≠ l then r ++ [f] else r
    | _, _ => r
  else r

/-- geometryProcessor.js clipPolygon: filter each ring down to its inside
vertices, re-close it, and keep only rings of at least 4 points. -/
def clipPolygon (boundary : Option ClipRing) (rings : List (List Coord)) : List (List Coord) :=
  match boundary with
  | none => rings
  | some ring =>
    (rings.map fun r => closeClippedRing (r.filter fun c => insideRing ring c)).filter
      fun r => 4 ≤ r.length

/-- geometryProcessor.js clipFeatureToBoundary: per-kind clipping, with null
for a dropped feature; kinds without a branch pass through unchanged. -/
def clipFeatureToBoundary (boundary : Option ClipRing) (f : Feature) : Option Feature :=
  match boundary with
  | none => some f
  | some _ =>
    match f.geometry with
    | .point c => if isPointInBoundary boundary c.1 c.2 then some f else none
    | .lineString cs =>
      let clipped := clipLineString boundary cs
      if clipped.length < 2 then none else some ⟨.lineString clipped, f.properties⟩
    | .polygon rings =>
      let clipped := clipPolygon boundary rings
      match clipped with
      | [] => none
      | r0 :: _ => if r0.length < 4 then none else some ⟨.polygon clipped, f.properties⟩
    | .multiLineString ls =>
      let clipped := (ls.map fun l => clipLineString boundary l).filter fun l => 2 ≤ l.length
      if clipped.isEmpty then none else some ⟨.multiLineString clipped, f.properties⟩
    | _ => some f

/-- Claim C3 rendered literally: keep each inside vertex; an outside vertex
whose immediate next vertex is inside becomes its clamp, unconditionally. -/
def clipLineStringClaimC3 (ring : ClipRing) : List Coord → List Coord
  | [] => []
  | c :: rest =>
    if insideRing ring c then c :: clipLineStringClaimC3 ring rest
    else
      match rest with
      | next :: _ =>
        if insideRing ring next then clampToRing ring c :: clipLineStringClaimC3 ring rest
        else clipLineStringClaimC3 ring rest
      | [] => []

/-- Claim C3 amended: as the claim, but the clamp substitution additionally
requires that at least one point has already been kept (the flag). -/
def clipLineStringSpecC3 (ring : ClipRing) (kept : Bool) : List Coord → List Coord
  | [] => []
  | c :: rest =>
    if insideRing ring c then c :: clipLineStringSpecC3 ring true rest
    else
      match rest with
      | next :: _ =>
        if kept && insideRing ring next then
          clampToRing ring c :: clipLineStringSpecC3 ring true rest
        else clipLineStringSpecC3 ring kept rest
      | [] => []

/-- A raw OSM node element: id, coordinates, optional tags. -/
structure OsmNode : Type where
  id : Int
  lat : ℚ
  lon : ℚ
  tags : Option Tags
deriving DecidableEq, Repr

/-- A raw OSM way element: id, ordered node-id references, optional tags. -/
structure OsmWay : Type where
  id : Int
  nodes : List Int
  tags : Option Tags
deriving DecidableEq, Repr

/-- A member of a relation: member type string, referenced id, role (the
role is carried by the data but never read by the converter). -/
structure RelMember : Type where
  type : String
  ref : Int
  role : String
deriving DecidableEq, Repr

/-- A raw OSM relation element. -/
structure OsmRelation : Type where
  id : Int
  members : List RelMember
  tags : Option Tags
deriving DecidableEq, Repr

/-- A raw element of the query response, as partitioned by the converter. -/
inductive OsmElement : Type
  | node (n : OsmNode)
  | way (w : OsmWay)
  | relation (r : OsmRelation)
deriving DecidableEq, Repr

/-- The node bucket, in input order. -/
def nodesOf (es : List OsmElement) : List OsmNode :=
  es.filterMap fun e => match e with | .node n => some n | _ => none

/-- The way bucket, in input order. -/
def waysOf (es : List OsmElement) : List OsmWay :=
  es.filterMap fun e => match e with | .way w => some w | _ => none

/-- The relation bucket, in input order. -/
def relationsOf (es : List OsmElement) : List OsmRelation :=
  es.filterMap fun e => match e with | .relation r => some r | _ => none

/-- The node lookup nodes[id]: the JS object assignment makes the LAST node
element with a given id win, hence the reversed search. -/
def lookupNode (ns : List OsmNode) (i : Int) : Option OsmNode :=
  ns.reverse.find? fun n => n.id == i

/-- Resolve a way's node-id list through the lookup, silently dropping ids
that do not resolve, producing [lon, lat] pairs. -/
def resolveCoords (ns : List OsmNode) (ids : List Int) : List Coord :=
  ids.filterMap fun i => (lookupNode ns i).map fun n => (n.lon, n.lat)

/-- The node pass, per element: a node whose lat and lon are truthy (JS
truthiness: nonzero) with a non-empty tag object becomes a Point feature,
kept when it lies in the boundary (or none is set); all else yields nothing. -/
def nodePointFeature (boundary : Option ClipRing) (el : OsmElement) : Option Feature :=
  match el with
  | .node n =>
    if n.lat ≠ 0 ∧ n.lon ≠ 0 ∧ tagsNonEmpty n.tags = true then
      if isPointInBoundary boundary n.lon n.lat then
        some ⟨.point (n.lon, n.lat), cleanProperties n.tags⟩
      else none
    else none
  | _ => none

/-- The way pass, per way: skip a way with no node references or no resolved
coordinates; close-ness compares the first and last referenced id; classify
via isAreaFeature; build a Polygon with a single ring or a LineString; clip;
push only when clipping succeeds with a non-empty coordinates array. -/
def wayLineFeature (boundary : Option ClipRing) (ns : List OsmNode) (w : OsmWay) :
    Option Feature :=
  if w.nodes.isEmpty then none
  else
    let coords := resolveCoords ns w.nodes
    if coords.isEmpty then none
    else
      let isClosed := w.nodes.head? == w.nodes.getLast?
      let isArea := isAreaFeature w.tags isClosed coords.length
      let f : Feature :=
        ⟨if isArea then .polygon [coords] else .lineString coords, cleanProperties w.tags⟩
      match clipFeatureToBoundary boundary f with
      | some f2 => if 0 < coordinatesLength f2.geometry then some f2 else none
      | none => none

/-- The relation pass, per relation: for each member way (truthy ref) found
in the way bucket, resolve its coordinates; collect the non-empty coordinate
lists; a non-empty collection becomes one MultiLineString feature, clipped
and pushed as in the way pass.  Member roles are ignored. -/
def relationFeature (boundary : Option ClipRing) (ns : List OsmNode) (ws : List OsmWay)
    (r : OsmRelation) : Option Feature :=
  if r.members.isEmpty then none
  else
    let memberCoords := r.members.filterMap fun m =>
      if m.type = "way" ∧ m.ref ≠ (0 : Int) then
        match ws.find? (fun w => w.id == m.ref) with
        | some w =>
          let coords := resolveCoords ns w.nodes
          if coords.isEmpty then none else some coords
        | none => none
      else none
    if memberCoords.isEmpty then none
    else
      let f : Feature := ⟨.multiLineString memberCoords, cleanProperties r.tags⟩
      match clipFeatureToBoundary boundary f with
      | some f2 => if 0 < coordinatesLength f2.geometry then some f2 else none
      | none => none

/-- geometryProcessor.js osmToGeoJSON, feature output: empty input returns
the empty collection; otherwise Point features (node pass), then
LineString/Polygon features (way pass), then MultiLineString features
(relation pass), each pass in input order. -/
def osmToGeoJSON (boundary : Option ClipRing) (es : List OsmElement) : FeatureCollection :=
  if es.isEmpty then ⟨[]⟩
  else
    let ns := nodesOf es
    ⟨es.filterMap (nodePointFeature boundary) ++
      (waysOf es).filterMap (wayLineFeature boundary ns) ++
      (relationsOf es).filterMap (relationFeature boundary ns (waysOf es))⟩

/-- A progress event delivered to the onProgress sink. -/
structure ProgressEvent : Type where
  stage : String
  message : String
  progress : Int
deriving DecidableEq, Repr

/-- Node-pass progress events: the processed counter is incremented for
every element, and every 100th one reports floor(processed/total*50). -/
def nodePassEvents (total : Nat) : List ProgressEvent :=
  (List.range total).filterMap fun i =>
    if (i + 1) % 100 = 0 then
      some ⟨"process", "Processing geometries...",
        Rat.floor ((((i : ℚ) + 1) / (total : ℚ)) * 50)⟩
    else none

/-- A way the way pass skips before incrementing its processed counter. -/
def waySkipped (ns : List OsmNode) (w : OsmWay) : Bool :=
  w.nodes.isEmpty || (resolveCoords ns w.nodes).isEmpty

/-- Way-pass progress events: the counter continues from the node pass and
is incremented only for ways that are not skipped; every 50th report is
50 + floor((processed - distinctNodeIds)/wayCount*40). -/
def wayPassEvents (ns : List OsmNode) (distinct nways : Nat) :
    Nat → List OsmWay → List ProgressEvent
  | _, [] => []
  | processed, w :: rest =>
    if waySkipped ns w then wayPassEvents ns distinct nways processed rest
    else
      (if (processed + 1) % 50 = 0 then
        [⟨"process", "Processing ways...",
          50 + Rat.floor (((((processed : ℚ) + 1) - (distinct : ℚ)) / (nways : ℚ)) * 40)⟩]
      else []) ++ wayPassEvents ns distinct nways (processed + 1) rest

/-- geometryProcessor.js osmToGeoJSON, progress output: nothing on empty
input (the function returns before the first report); otherwise the start
report, the node-pass reports, the way-pass reports (the relation pass
reports nothing), and the final complete report. -/
def osmProgressEvents (es : List OsmElement) : List ProgressEvent :=
  if es.isEmpty then []
  else
    ⟨"process", "Processing nodes...", 0⟩ ::
      (nodePassEvents es.length ++
        wayPassEvents (nodesOf es) (((nodesOf es).map (·.id)).dedup.length)
          (waysOf es).length es.length (waysOf es) ++
        [⟨"complete", "Processing complete", 100⟩])

/-- The count fields of the statistics record built by getStatistics (the
tag histogram, bounds and top-type fields of the source are derived data the
counting claims do not touch and are not modelled here). -/
structure Stats : Type where
  totalFeatures : Nat
  points : Nat
  lines : Nat
  polygons : Nat
  other : Nat
deriving DecidableEq, Repr

/-- One iteration of the getStatistics loop: bump the bucket selected by the
geometry type string, with the same if/else chain as the source. -/
def statsStep (s : Stats) (f : Feature) : Stats :=
  let t := geomTypeName f.geometry
  if t = "Point" ∨ t = "MultiPoint" then { s with points := s.points + 1 }
  else if t = "LineString" ∨ t = "MultiLineString" then { s with lines := s.lines + 1 }
  else if t = "Polygon" ∨ t = "MultiPolygon" then { s with polygons := s.polygons + 1 }
  else { s with other := s.other + 1 }

/-- geometryProcessor.js getStatistics: totalFeatures is the feature count,
the four buckets are accumulated in one pass over the features. -/
def getStatistics (geojson : FeatureCollection) : Stats :=
  geojson.features.foldl statsStep
    { totalFeatures := geojson.features.length, points := 0, lines := 0, polygons := 0, other := 0 }

/-- geometryProcessor.js getSampleFeatures: for each of Point, LineString,
Polygon in that order take the first ceil(limit/3) features of that type,
then truncate the concatenation to limit. -/
def getSampleFeatures (geojson : FeatureCollection) (limit : Nat) : List Feature :=
  if geojson.features.isEmpty then []
  else
    let types := ["Point", "LineString", "Polygon"]
    let samples := types.foldl
      (fun samples t =>
        let featuresOfType := geojson.features.filter fun f => geomTypeName f.geometry == t
        if !featuresOfType.isEmpty then
          samples ++ featuresOfType.take ((limit + types.length - 1) / types.length)
        else samples)
      []
    samples.take limit

/-- exportService.js filterByGeometry: expand the requested coarse kinds
through the fixed type map, then keep the features whose geometry type
string is in the allowed set. -/
def filterByGeometry (geojson : FeatureCollection) (allowedTypes : List String) :
    FeatureCollection :=
  let typeMap : String → List String := fun t =>
    if t = "Point" then ["Point", "MultiPoint"]
    else if t = "LineString" then ["LineString", "MultiLineString"]
    else if t = "Polygon" then ["Polygon", "MultiPolygon"]
    else []
  let allowed := allowedTypes.foldl (fun acc t => acc ++ typeMap t) []
  ⟨geojson.features.filter fun f => allowed.contains (geomTypeName f.geometry)⟩

/-- The format dispatch of exportService.js export.  The five encoders are
thin format adapters outside the modelled core; each is modelled as
succeeding with the collection it was handed, while an unrecognized format
throws, re-wrapped by the catch block of export. -/
def exportDispatch (format : String) (geojson : FeatureCollection) :
    Except String FeatureCollection :=
  if format = "geojson" ∨ format = "shapefile" ∨ format = "kml" ∨ format = "gpx" ∨
      format = "osm" then
    Except.ok geojson
  else Except.error "Export failed: Unsupported export format"

/-- exportService.js export: a present, non-empty geometry filter is applied
first and an empty filtered result throws; the catch block prefixes every
thrown message with "Export failed: ". -/
def exportOp (format : String) (geojson : FeatureCollection)
    (geometryFilter : Option (List String)) : Except String FeatureCollection :=
  match geometryFilter with
  | some gf =>
    if 0 < gf.length then
      let filteredGeoJSON := filterByGeometry geojson gf
      if filteredGeoJSON.features.length = 0 then
        Except.error "Export failed: No features match the selected geometry types"
      else exportDispatch format filteredGeoJSON
    else exportDispatch format geojson
  | none => exportDispatch format geojson

/-- The concrete collection of claim C6: 10 Point features, then 10
LineString features, no Polygon features. -/
def sampleCollectionC6 : FeatureCollection :=
  ⟨[⟨.point (0, 0), []⟩, ⟨.point (1, 0), []⟩] ++
      List.replicate 8 ⟨.point (2, 0), []⟩ ++
    ([⟨.lineString [(0, 0), (0, 1)], []⟩, ⟨.lineString [(1, 0), (1, 1)], []⟩] ++
      List.replicate 8 ⟨.lineString [(2, 0), (2, 1)], []⟩)⟩

/-- Claim C8: isValidCoordinate is true exactly on lat in [-90, 90] and
lon in [-180, 180], and is false at lat 91, lat -91, lon 181, lon -181. -/
theorem C8_isValidCoordinate :
    (∀ lat lon : ℚ, isValidCoordinate lat lon = true ↔
      (-90 ≤ lat ∧ lat ≤ 90 ∧ -180 ≤ lon ∧ lon ≤ 180)) ∧
    isValidCoordinate 91 0 = false ∧ isValidCoordinate (-91) 0 = false ∧
    isValidCoordinate 0 181 = false ∧ isValidCoordinate 0 (-181) = false := by
  refine ⟨?_, by decide, by decide, by decide, by decide⟩
  intro lat lon
  simp [isValidCoordinate, and_assoc]

/-- Claim C9: cleanProperties is idempotent, and its output carries no
skip-list key and no empty value. -/
theorem C9_clean_idempotent :
    ∀ ts : Tags,
      cleanProperties (some (cleanProperties (some ts))) = cleanProperties (some ts) ∧
      ((cleanProperties (some ts)).all fun kv => !(kv.2 == "") && !(skipFields.contains kv.1)) = true := by
  intro ts
  constructor
  · simp only [cleanProperties]
    rw [List.filter_filter]
    apply List.filter_congr
    intro kv _
    rw [Bool.and_self]
  · simp only [cleanProperties]
    rw [List.all_eq_true]
    intro kv hkv
    exact (List.mem_filter.mp hkv).2

/-- Claim C1 (amended): isAreaFeature agrees everywhere with the claim's
description once "key present" is read as "key present with a non-empty
value"; the guard, the explicit area override, and the remaining-case-false
clauses are as the claim states them. -/
theorem C1_isArea_amended :
    ∀ (ts : Tags) (isClosed : Bool) (nodeCount : Nat),
      isAreaFeature (some ts) isClosed nodeCount = isAreaSpecC1 ts isClosed nodeCount := by
  intro ts isClosed nodeCount
  simp only [isAreaFeature, isAreaSpecC1]
  split
  · rfl
  · split
    · rfl
    · split
      · rfl
      · rename_i hno
        by_cases h1 : polygonTags.any (fun k => truthyTag ts k) = true
        · simp [h1]
        · simp only [Bool.not_eq_true] at h1
          simp only [h1, if_false, Bool.false_or]
          by_cases h2 : tagValue ts "natural" = some "water" ∨ tagValue ts "natural" = some "wood" ∨
              tagValue ts "natural" = some "scrub" ∨ tagValue ts "natural" = some "wetland"
          · rcases h2 with h | h | h | h <;> simp [h]
          · push_neg at h2
            obtain ⟨hw, hwo, hs, hwe⟩ := h2
            simp only [hw, hwo, hs, hwe, decide_False, Bool.false_or, or_self, if_false]
            by_cases h3 : tagValue ts "waterway" = some "riverbank" ∨ tagValue ts "waterway" = some "dock"
            · rcases h3 with h | h <;> simp [h]
            · push_neg at h3
              obtain ⟨hr, hd⟩ := h3
              simp [hr, hd]

/-- Claim C1 counterexample: with tags building="" on a closed way of 4
vertices the key "building" is present, so the claim as stated forces true,
but the source tests JS truthiness of the value and returns false. -/
theorem C1_isArea_counterexample :
    isAreaClaimC1 [("building", "")] true 4 = true ∧
    isAreaFeature (some [("building", "")]) true 4 = false := by
  decide

/-- One step of the clipLineString loop, as a rewriting equation. -/
lemma clipLineStringLoop_cons (ring : ClipRing) (clipped : List Coord) (c : Coord)
    (rest : List Coord) :
    clipLineStringLoop ring clipped (c :: rest) =
      clipLineStringLoop ring
        (if insideRing ring c then clipped ++ [c]
         else
           match rest with
           | next :: _ =>
             if decide (0 < clipped.length) && insideRing ring next then
               clipped ++ [clampToRing ring c]
             else clipped
           | [] => clipped)
        rest := rfl

/-- One step of the amended claim function, as a rewriting equation. -/
lemma clipLineStringSpecC3_cons (ring : ClipRing) (kept : Bool) (c : Coord)
    (rest : List Coord) :
    clipLineStringSpecC3 ring kept (c :: rest) =
      (if insideRing ring c then c :: clipLineStringSpecC3 ring true rest
       else
         match rest with
         | next :: _ =>
           if kept && insideRing ring next then
             clampToRing ring c :: clipLineStringSpecC3 ring true rest
           else clipLineStringSpecC3 ring kept rest
         | [] => []) := rfl

/-- The loop of clipLineString refines the amended claim: the accumulator
prefixes the result, and the "already kept a point" flag is exactly the
nonemptiness of the accumulator. -/
lemma clipLineStringLoop_eq_spec (ring : ClipRing) (coords : List Coord) :
    ∀ clipped : List Coord,
      clipLineStringLoop ring clipped coords =
        clipped ++ clipLineStringSpecC3 ring (decide (0 < clipped.length)) coords := by
  induction coords with
  | nil => intro clipped; simp [clipLineStringLoop, clipLineStringSpecC3]
  | cons c rest ih =>
    intro clipped
    rw [clipLineStringLoop_cons, clipLineStringSpecC3_cons]
    by_cases h : insideRing ring c = true
    · rw [if_pos h, if_pos h, ih (clipped ++ [c])]
      have hk : decide (0 < (clipped ++ [c]).length) = true := by simp
      rw [hk]
      simp
    · rw [if_neg h, if_neg h]
      cases rest with
      | nil => simp [clipLineStringLoop, clipLineStringSpecC3]
      | cons next rest2 =>
        show clipLineStringLoop ring
            (if decide (0 < clipped.length) && insideRing ring next then
              clipped ++ [clampToRing ring c]
            else clipped) (next :: rest2) =
          clipped ++
            (if decide (0 < clipped.length) && insideRing ring next then
              clampToRing ring c :: clipLineStringSpecC3 ring true (next :: rest2)
            else clipLineStringSpecC3 ring (decide (0 < clipped.length)) (next :: rest2))
        by_cases h2 : (decide (0 < clipped.length) && insideRing ring next) = true
        · rw [if_pos h2, if_pos h2, ih (clipped ++ [clampToRing ring c])]
          have hk : decide (0 < (clipped ++ [clampToRing ring c]).length) = true := by simp
          rw [hk]
          simp
        · rw [if_neg h2, if_neg h2, ih clipped]

/-- Claim C3 (amended): with a boundary set, clipLineString keeps inside
vertices in order and clamps an outside vertex whose immediate next vertex is
inside, provided at least one point was already kept; clipFeatureToBoundary
keeps the clipped LineString feature exactly when 2 or more points remain. -/
theorem C3_clipLineString_amended :
    ∀ (ring : ClipRing) (cs : List Coord) (props : Tags),
      clipLineString (some ring) cs = clipLineStringSpecC3 ring false cs ∧
      clipFeatureToBoundary (some ring) ⟨.lineString cs, props⟩ =
        (if (clipLineStringSpecC3 ring false cs).length < 2 then none
         else some ⟨.lineString (clipLineStringSpecC3 ring false cs), props⟩) := by
  intro ring cs props
  have hbase : clipLineString (some ring) cs = clipLineStringSpecC3 ring false cs := by
    show clipLineStringLoop ring [] cs = clipLineStringSpecC3 ring false cs
    rw [clipLineStringLoop_eq_spec ring cs []]
    simp
  refine ⟨hbase, ?_⟩
  simp only [clipFeatureToBoundary]
  rw [hbase]

/-- Claim C3 counterexample: boundary rectangle [0,10] x [0,10] and the line
[(20, 5), (5, 5), (6, 5)].  The first vertex is outside with an inside
successor, so the claim as stated substitutes its clamp (10, 5), but the
source drops it because no vertex had been kept yet. -/
theorem C3_clipLineString_counterexample :
    clipLineStringClaimC3 [((0 : ℚ), (10 : ℚ)), (10, 10), (10, 0), (0, 0), (0, 10)]
        [((20 : ℚ), (5 : ℚ)), (5, 5), (6, 5)] =
      [((10 : ℚ), (5 : ℚ)), (5, 5), (6, 5)] ∧
    clipLineString (some [((0 : ℚ), (10 : ℚ)), (10, 10), (10, 0), (0, 0), (0, 10)])
        [((20 : ℚ), (5 : ℚ)), (5, 5), (6, 5)] =
      [((5 : ℚ), (5 : ℚ)), (6, 5)] := by
  decide

/-- Claim C2: the node pass at the failing input.  A tagged node sitting on
the equator (lat = 0) is dropped, because the source guards the node pass
with JS truthiness of el.lat and el.lon and 0 is falsy; moving the node off
the zero line makes the expected Point feature appear. -/
theorem C2_node_zero_coordinate :
    (osmToGeoJSON none [.node ⟨1, 0, 5, some [("name", "x")]⟩]).features = [] ∧
    (osmToGeoJSON none [.node ⟨1, 1, 5, some [("name", "x")]⟩]).features =
      [⟨.point (5, 1), [("name", "x")]⟩] := by
  decide

/-- A successful clip that yields a LineString geometry always yields at
least 2 points, whatever feature went in. -/
lemma clipFeature_lineString_length (ring : ClipRing) (f f2 : Feature) (cs : List Coord)
    (hclip : clipFeatureToBoundary (some ring) f = some f2)
    (hgeom : f2.geometry = Geometry.lineString cs) : 2 ≤ cs.length := by
  obtain ⟨g, props⟩ := f
  cases g with
  | point c =>
    simp only [clipFeatureToBoundary] at hclip
    split at hclip
    · rw [Option.some.injEq] at hclip
      subst hclip
      simp at hgeom
    · simp at hclip
  | lineString cs0 =>
    simp only [clipFeatureToBoundary] at hclip
    split at hclip
    · simp at hclip
    · rename_i hlen
      rw [Option.some.injEq] at hclip
      subst hclip
      simp only [] at hgeom
      injection hgeom with h
      subst h
      omega
  | polygon rings =>
    simp only [clipFeatureToBoundary] at hclip
    cases hcp : clipPolygon (some ring) rings with
    | nil =>
      rw [hcp] at hclip
      simp at hclip
    | cons r0 rtail =>
      rw [hcp] at hclip
      simp only [] at hclip
      split at hclip
      · simp at hclip
      · rw [Option.some.injEq] at hclip
        subst hclip
        simp at hgeom
  | multiLineString ls =>
    simp only [clipFeatureToBoundary] at hclip
    split at hclip
    · simp at hclip
    · rw [Option.some.injEq] at hclip
      subst hclip
      simp at hgeom
  | multiPoint cs0 =>
    simp only [clipFeatureToBoundary] at hclip
    rw [Option.some.injEq] at hclip
    subst hclip
    simp at hgeom
  | multiPolygon ps =>
    simp only [clipFeatureToBoundary] at hclip
    rw [Option.some.injEq] at hclip
    subst hclip
    simp at hgeom
  | other t =>
    simp only [clipFeatureToBoundary] at hclip
    rw [Option.some.injEq] at hclip
    subst hclip
    simp at hgeom

/-- Claim C4 (amended): when a clip boundary is set, every LineString
feature of the converter's output has at least 2 points. -/
theorem C4_lineString_min_two (ring : ClipRing) (es : List OsmElement) (f : Feature)
    (cs : List Coord) (hf : f ∈ (osmToGeoJSON (some ring) es).features)
    (hg : f.geometry = Geometry.lineString cs) : 2 ≤ cs.length := by
  by_cases hes : es.isEmpty
  · simp [osmToGeoJSON, hes] at hf
  · simp only [Bool.not_eq_true] at hes
    simp only [osmToGeoJSON, hes, Bool.false_eq_true, if_false, List.mem_append] at hf
    rcases hf with (hf | hf) | hf
    · obtain ⟨el, _, hel⟩ := List.mem_filterMap.mp hf
      cases el with
      | node n =>
        simp only [nodePointFeature] at hel
        split at hel
        · split at hel
          · rw [Option.some.injEq] at hel
            subst hel
            simp at hg
          · simp at hel
        · simp at hel
      | way w => simp [nodePointFeature] at hel
      | relation r => simp [nodePointFeature] at hel
    · obtain ⟨w, _, hw⟩ := List.mem_filterMap.mp hf
      simp only [wayLineFeature] at hw
      split at hw
      · simp at hw
      · split at hw
        · simp at hw
        · split at hw
          · rename_i f2 heq
            split at hw
            · rw [Option.some.injEq] at hw
              subst hw
              exact clipFeature_lineString_length ring _ f2 cs heq hg
            · simp at hw
          · simp at hw
    · obtain ⟨r, _, hr⟩ := List.mem_filterMap.mp hf
      simp only [relationFeature] at hr
      split at hr
      · simp at hr
      · split at hr
        · simp at hr
        · split at hr
          · rename_i f2 heq
            split at hr
            · rw [Option.some.injEq] at hr
              subst hr
              exact clipFeature_lineString_length ring _ f2 cs heq hg
            · simp at hr
          · simp at hr

/-- Claim C4 witness: a concrete two-node way inside the boundary, whose
clipped LineString indeed keeps its 2 points. -/
theorem C4_lineString_min_two_witness :
    2 ≤ ([((1 : ℚ), (1 : ℚ)), (2, 2)] : List Coord).length :=
  C4_lineString_min_two [((0 : ℚ), (10 : ℚ)), (10, 10), (10, 0), (0, 0), (0, 10)]
    [.node ⟨1, 1, 1, none⟩, .node ⟨2, 2, 2, none⟩, .way ⟨3, [1, 2], none⟩]
    ⟨.lineString [(1, 1), (2, 2)], []⟩ [(1, 1), (2, 2)] (by decide) rfl

/-- Claim C4 counterexample: with no clip boundary set, a way with a single
resolvable node reference is emitted as a LineString of one point, so the
claim's "whether or not a clip boundary is set" fails. -/
theorem C4_degenerate_counterexample :
    (osmToGeoJSON none [.node ⟨1, 1, 1, none⟩, .way ⟨2, [1], none⟩]).features =
      [⟨.lineString [((1 : ℚ), (1 : ℚ))], []⟩] ∧
    ([((1 : ℚ), (1 : ℚ))] : List Coord).length < 2 := by
  decide

/-- Claim C7 (amended): for every NON-EMPTY input element list, the progress
sink first receives the start report and last receives the complete report
with progress 100. -/
theorem C7_progress_first_last (es : List OsmElement) (h : es ≠ []) :
    (osmProgressEvents es).head? = some ⟨"process", "Processing nodes...", 0⟩ ∧
    (osmProgressEvents es).getLast? = some ⟨"complete", "Processing complete", 100⟩ := by
  have hne : es.isEmpty = false := by
    cases es with
    | nil => exact absurd rfl h
    | cons a t => rfl
  constructor
  · simp [osmProgressEvents, hne]
  · have hsplit : osmProgressEvents es =
        (⟨"process", "Processing nodes...", 0⟩ ::
          (nodePassEvents es.length ++
            wayPassEvents (nodesOf es) (((nodesOf es).map (·.id)).dedup.length)
              (waysOf es).length es.length (waysOf es))) ++
          [⟨"complete", "Processing complete", 100⟩] := by
      simp [osmProgressEvents, hne]
    rw [hsplit, List.getLast?_concat]

/-- Claim C7 witness: on a one-node input the event sequence is exactly the
start report followed by the complete report. -/
theorem C7_progress_first_last_witness :
    (osmProgressEvents [.node ⟨1, 1, 1, some [("name", "x")]⟩]).head? =
        some ⟨"process", "Processing nodes...", 0⟩ ∧
    (osmProgressEvents [.node ⟨1, 1, 1, some [("name", "x")]⟩]).getLast? =
        some ⟨"complete", "Processing complete", 100⟩ :=
  C7_progress_first_last [.node ⟨1, 1, 1, some [("name", "x")]⟩] (by decide)

/-- Claim C7 counterexample: on the empty element list the converter returns
before reporting anything, so the sink receives no start report and no final
complete report, against the claim's "for every input element list". -/
theorem C7_progress_counterexample :
    osmProgressEvents [] = [] ∧ (osmProgressEvents []).getLast? = none := by
  decide

/-- Claim C5: when the requested geometry-kind list is non-empty and the
filter leaves no feature, export fails with the EmptyResult error instead of
exporting an empty collection, whatever the format. -/
theorem C5_export_emptyResult (format : String) (fc : FeatureCollection) (gf : List String)
    (hne : gf ≠ []) (hempty : (filterByGeometry fc gf).features = []) :
    exportOp format fc (some gf) =
      Except.error "Export failed: No features match the selected geometry types" := by
  have hlen : 0 < gf.length := List.length_pos.mpr hne
  simp only [exportOp]
  rw [if_pos hlen]
  simp [hempty]

/-- Claim C5 witness: filtering a point-only collection down to polygons
leaves nothing, and the geojson export reports the EmptyResult failure. -/
theorem C5_export_emptyResult_witness :
    exportOp "geojson" ⟨[⟨.point (0, 0), []⟩]⟩ (some ["Polygon"]) =
      Except.error "Export failed: No features match the selected geometry types" :=
  C5_export_emptyResult "geojson" ⟨[⟨.point (0, 0), []⟩]⟩ ["Polygon"] (by decide) (by decide)

/-- Claim C6 counterexample: on 10 Points, 10 LineStrings and 0 Polygons a
sample with limit 6 takes ceil(6/3) = 2 per kind and the Polygon kind
contributes none, so exactly 4 features come back, not 6. -/
theorem C6_sample_counterexample :
    (getSampleFeatures sampleCollectionC6 6).length = 4 ∧
    (getSampleFeatures sampleCollectionC6 6).length ≠ 6 := by
  decide

/-- Claim C6 (amended): sample(collection, 6) on 10 Points, 10 LineStrings,
0 Polygons returns exactly 4 features, the first 2 Points and the first 2
LineStrings in collection order, containing only those two kinds. -/
theorem C6_sample_amended :
    getSampleFeatures sampleCollectionC6 6 =
      [⟨.point (0, 0), []⟩, ⟨.point (1, 0), []⟩,
       ⟨.lineString [(0, 0), (0, 1)], []⟩, ⟨.lineString [(1, 0), (1, 1)], []⟩] := by
  decide

/-- Each step of the statistics fold bumps exactly one bucket and leaves
totalFeatures untouched. -/
lemma foldl_statsStep_counts (l : List Feature) :
    ∀ s : Stats,
      ((l.foldl statsStep s).points + (l.foldl statsStep s).lines +
          (l.foldl statsStep s).polygons + (l.foldl statsStep s).other =
        s.points + s.lines + s.polygons + s.other + l.length) ∧
      (l.foldl statsStep s).totalFeatures = s.totalFeatures := by
  induction l with
  | nil => intro s; simp
  | cons f rest ih =>
    intro s
    rw [List.foldl_cons]
    obtain ⟨h1, h2⟩ := ih (statsStep s f)
    refine ⟨?_, ?_⟩
    · rw [h1]
      simp only [statsStep, List.length_cons]
      split_ifs <;> simp <;> omega
    · rw [h2]
      simp only [statsStep]
      split_ifs <;> rfl

/-- Claim C10: the four geometry buckets of getStatistics partition the
features: points + lines + polygons + other = totalFeatures = the number of
features of the collection. -/
theorem C10_statistics_partition (fc : FeatureCollection) :
    ((getStatistics fc).points + (getStatistics fc).lines + (getStatistics fc).polygons +
        (getStatistics fc).other = (getStatistics fc).totalFeatures) ∧
    (getStatistics fc).totalFeatures = fc.features.length := by
  obtain ⟨h1, h2⟩ := foldl_statsStep_counts fc.features
    { totalFeatures := fc.features.length, points := 0, lines := 0, polygons := 0, other := 0 }
  constructor
  · unfold getStatistics
    rw [h1, h2]
    simp
  · unfold getStatistics
    rw [h2]
